import Mathlib

/-!
Shallow embedding of the route-team controller in
src/components/needs_team/needs_team.tsx: team resolution against the
teams list, joining a team by slug, team initialization and its data
prefetches, the idle-wake monitor and the focus/blur read sync.
Side effects issued by the component are recorded as explicit traces of
an Effect type; asynchronous results (getTeamByName, addUserToTeam) are
supplied through an explicit environment.
-/

namespace NeedsTeam

/-- A team as seen by the controller: identity, route slug, soft-delete
timestamp (0 means active) and the group-constrained flag. -/
structure Team where
  id : String
  name : String
  delete_at : Nat
  group_constrained : Bool
deriving DecidableEq, Repr

/-- The current user: identity and space-separated roles string. -/
structure UserProfile where
  id : String
  roles : String
deriving DecidableEq, Repr

/-- The license record; the component compares the fields IsLicensed and
LDAPGroups against the string literal true. -/
structure License where
  IsLicensed : String
  LDAPGroups : String
deriving DecidableEq, Repr

/-- The props consumed by the NeedsTeam component (the fields the core
logic reads; match.params.team is flattened to matchParamsTeam). -/
structure Props where
  license : License
  currentUser : Option UserProfile
  currentChannelId : Option String
  currentTeamId : Option String
  mfaRequired : Bool
  matchParamsTeam : String
  previousTeamId : Option String
  teamsList : List Team
  collapsedThreads : Bool
  selectedThreadId : Option String
  isCustomGroupsEnabled : Bool
deriving DecidableEq, Repr

/-- The component state (team, finishedFetchingChannels, prevTeam,
teamsList). -/
structure State where
  team : Option Team
  finishedFetchingChannels : Bool
  prevTeam : String
  teamsList : List Team
deriving DecidableEq, Repr

/-- One observable side effect issued by the component: every action-prop
invocation, navigation, timer / listener operation and relevant setState
call, with the arguments the source passes. -/
inductive Effect where
  | fetchMyChannelsAndMembersREST (teamId : String)
  | fetchAllMyTeamsChannelsAndChannelMembersREST
  | getMyTeamUnreads (collapsedThreads : Bool)
  | viewChannel (channelId : String)
  | markChannelAsReadOnFocus (channelId : String)
  | getTeamByName (teamName : String)
  | addUserToTeam (teamId : String) (userId : Option String)
  | selectTeam (teamId : String)
  | setPreviousTeamId (teamId : String)
  | loadStatusesForChannelAndSidebar
  | getAllGroupsAssociatedToChannelsInTeam (teamId : String) (filterAllowReference : Bool)
  | getAllGroupsAssociatedToTeam (teamId : String) (filterAllowReference : Bool)
  | getGroupsByUserIdPaginated (userId : String) (filterAllowReference : Bool)
      (page : Nat) (perPage : Nat) (includeMemberCount : Bool)
  | getGroups (filterAllowReference : Bool) (page : Nat) (perPage : Nat)
  | emitCloseRightHandSide
  | historyPush (path : String)
  | setTeamIdJoinedOnLoad (teamId : Option String)
  | setStateFinishedFetchingChannels (b : Bool)
  | reconnect (forced : Bool)
  | setWindowInterval
  | clearWindowInterval
  | addEventListener (event : String)
  | removeEventListener (event : String)
  | startPeriodicStatusUpdates
  | stopPeriodicStatusUpdates
  | setWindowIsActive (b : Bool)
  | enableINoBounce
deriving DecidableEq, Repr

/-- Whether the first character list starts the second. -/
def startsWithRole : List Char → List Char → Bool
  | [], _ => true
  | _ :: _, [] => false
  | a :: as, b :: bs => a == b && startsWithRole as bs

/-- Whether the pattern occurs as a contiguous run of the character
list. -/
def hasRoleChars (pat : List Char) : List Char → Bool
  | [] => startsWithRole pat []
  | c :: cs => startsWithRole pat (c :: cs) || hasRoleChars pat cs

/-- Modelled from the spec: the guest-role predicate isGuest from
mattermost-redux user_utils, which is imported but not part of src/; a
user is a guest when the roles string contains the system_guest role. -/
def isGuest (roles : String) : Bool :=
  hasRoleChars "system_guest".data roles.data

/-- Whether the current user exists and is a guest
(props.currentUser && isGuest(props.currentUser.roles)). -/
def isGuestUser (props : Props) : Bool :=
  match props.currentUser with
  | some u => isGuest u.roles
  | none => false

/-- The group-fetch gate of initTeam: license.IsLicensed === true and
(license.LDAPGroups === true or isCustomGroupsEnabled). -/
def groupFetchGate (props : Props) : Bool :=
  props.license.IsLicensed == "true" &&
    (props.license.LDAPGroups == "true" || props.isCustomGroupsEnabled)

/-- The condition selecting the fetch of groups associated to the team
itself: team.group_constrained and LDAPGroups enabled. -/
def teamGroupsCond (props : Props) (team : Team) : Bool :=
  team.group_constrained && props.license.LDAPGroups == "true"

/-- The effect trace of NeedsTeam.initTeam(team): close the right-hand
sidebar when switching away from the previous team, fetch team unreads,
select the team, persist it as previous team, reset
finishedFetchingChannels for guests, fetch channels and members, load
statuses, then the license-gated group fetches. The completion callback
of the channel fetch is modelled separately by channelsFetchedUpdate. -/
def initTeam (props : Props) (team : Team) : List Effect :=
  (if some team.id ≠ props.previousTeamId then [Effect.emitCloseRightHandSide] else []) ++
  [Effect.getMyTeamUnreads props.collapsedThreads,
   Effect.selectTeam team.id,
   Effect.setPreviousTeamId team.id] ++
  (if isGuestUser props then [Effect.setStateFinishedFetchingChannels false] else []) ++
  [Effect.fetchMyChannelsAndMembersREST team.id,
   Effect.loadStatusesForChannelAndSidebar] ++
  (if groupFetchGate props then
    (match props.currentUser with
     | some u => [Effect.getGroupsByUserIdPaginated u.id false 0 60 true]
     | none => []) ++
    (if props.license.LDAPGroups == "true" then
      [Effect.getAllGroupsAssociatedToChannelsInTeam team.id true] else []) ++
    (if teamGroupsCond props team then
      [Effect.getAllGroupsAssociatedToTeam team.id true]
     else
      [Effect.getGroups false 0 60])
   else [])

/-- The state change of initTeam that is synchronous (before the channel
fetch resolves): for a guest user, finishedFetchingChannels := false. -/
def initTeamStateUpdate (props : Props) (state : State) : State :=
  if isGuestUser props then { state with finishedFetchingChannels := false } else state

/-- The completion callback of the channel fetch inside initTeam:
setState finishedFetchingChannels := true. -/
def channelsFetchedUpdate (state : State) : State :=
  { state with finishedFetchingChannels := true }

/-- The asynchronous results joinTeam observes: the data field of
getTeamByName (none models an undefined team) and whether addUserToTeam
returned an error. -/
structure JoinEnv where
  getTeamByNameResult : Option Team
  addUserToTeamError : Bool
deriving DecidableEq, Repr

/-- The effect trace and resulting state team of NeedsTeam.joinTeam:
reserved slugs (Constants.RESERVED_TEAM_NAMES, passed here as the
reservedTeamNames parameter since utils/constants is outside src/) are
skipped; otherwise fetch the team by name, and on an active team attempt
to add the user; every failure path pushes the team-not-found error
route, the success path records the joined team id on first load,
stores the team in state and runs initTeam. -/
def joinTeam (reservedTeamNames : List String) (props : Props) (env : JoinEnv)
    (firstLoad : Bool) : List Effect × Option Team :=
  if reservedTeamNames.contains props.matchParamsTeam then
    ([], none)
  else
    match env.getTeamByNameResult with
    | some team =>
      if team.delete_at = 0 then
        if env.addUserToTeamError then
          ([Effect.getTeamByName props.matchParamsTeam,
            Effect.addUserToTeam team.id (props.currentUser.map (fun u => u.id)),
            Effect.historyPush "/error?type=team_not_found"], none)
        else
          ([Effect.getTeamByName props.matchParamsTeam,
            Effect.addUserToTeam team.id (props.currentUser.map (fun u => u.id))] ++
           (if firstLoad then [Effect.setTeamIdJoinedOnLoad (some team.id)] else []) ++
           initTeam props team, some team)
      else
        ([Effect.getTeamByName props.matchParamsTeam,
          Effect.historyPush "/error?type=team_not_found"], none)
    | none =>
        ([Effect.getTeamByName props.matchParamsTeam,
          Effect.historyPush "/error?type=team_not_found"], none)

/-- NeedsTeam.updateCurrentTeam: look the route slug up in the teams
list; when found, run initTeam and return the team, else null. -/
def updateCurrentTeam (props : Props) : List Effect × Option Team :=
  match props.teamsList.find? (fun t => t.name == props.matchParamsTeam) with
  | some team => (initTeam props team, some team)
  | none => ([], none)

/-- One complete resolution of a route slug, as performed by the
constructor (updateCurrentTeam, then joinTeam when the slug was not in
the teams list): the issued effects together with the team the
controller ends up holding. -/
def resolveRoute (reservedTeamNames : List String) (props : Props) (env : JoinEnv)
    (firstLoad : Bool) : List Effect × Option Team :=
  match updateCurrentTeam props with
  | (effs, some team) => (effs, some team)
  | (effs, none) =>
      let j := joinTeam reservedTeamNames props env firstLoad
      (effs ++ j.1, j.2)

/-- The exactly-one invariant of a completed resolution, as the spec
states it: either the controller holds a team and no error navigation
was issued, or it holds none and the team-not-found navigation was
issued. -/
def resolutionExactlyOne (reservedTeamNames : List String) (props : Props)
    (env : JoinEnv) (firstLoad : Bool) : Prop :=
  ((resolveRoute reservedTeamNames props env firstLoad).2.isSome = true ∧
    Effect.historyPush "/error?type=team_not_found" ∉
      (resolveRoute reservedTeamNames props env firstLoad).1) ∨
  ((resolveRoute reservedTeamNames props env firstLoad).2 = none ∧
    Effect.historyPush "/error?type=team_not_found" ∈
      (resolveRoute reservedTeamNames props env firstLoad).1)

/-- NeedsTeam.getDerivedStateFromProps: when the route slug changed,
re-resolve the team from the teams list and record the new slug;
otherwise only record the slug. finishedFetchingChannels is not part of
the returned partial state and is left unchanged. -/
def getDerivedStateFromProps (nextProps : Props) (state : State) : State :=
  if state.prevTeam ≠ nextProps.matchParamsTeam then
    { state with
      prevTeam := nextProps.matchParamsTeam,
      team := nextProps.teamsList.find? (fun t => t.name == nextProps.matchParamsTeam) }
  else
    { state with prevTeam := nextProps.matchParamsTeam }

/-- One update cycle on a route-slug change: getDerivedStateFromProps
followed by componentDidUpdate, which runs initTeam when the re-resolved
team exists and joinTeam (with firstLoad false) when it does not.
Returns the state before any asynchronous completion callback, and the
issued effects. -/
def routeChangeUpdate (reservedTeamNames : List String) (prevProps props : Props)
    (state : State) (env : JoinEnv) : State × List Effect :=
  let st := getDerivedStateFromProps props state
  if props.matchParamsTeam ≠ prevProps.matchParamsTeam then
    match st.team with
    | some team => (initTeamStateUpdate props st, initTeam props team)
    | none =>
        let j := joinTeam reservedTeamNames props env false
        (match j.2 with
         | some team => initTeamStateUpdate props { st with team := some team }
         | none => st, j.1)
  else
    (st, [])

/-- WAKEUP_CHECK_INTERVAL (30 seconds), the idle-wake tick period. -/
def WAKEUP_CHECK_INTERVAL : Nat := 30000

/-- WAKEUP_THRESHOLD (60 seconds), the elapsed-time bound beyond which a
tick infers a process suspension. -/
def WAKEUP_THRESHOLD : Nat := 60000

/-- UNREAD_CHECK_TIME_MILLISECONDS (10 seconds), the blur-staleness
bound of handleFocus. -/
def UNREAD_CHECK_TIME_MILLISECONDS : Nat := 10000

/-- The module-level idle-wake state: the lastTime timestamp. -/
structure IdleWakeState where
  lastTime : Nat
deriving DecidableEq, Repr

/-- The module-scope initialization let lastTime = Date.now(), run once
when the module loads. -/
def idleWakeModuleInit (moduleLoadTime : Nat) : IdleWakeState :=
  { lastTime := moduleLoadTime }

/-- What the constructor does to the idle-wake timestamp when it starts
the monitor interval: nothing — it clears and re-creates the interval
but never assigns lastTime. -/
def idleWakeStart (_now : Nat) (st : IdleWakeState) : IdleWakeState :=
  st

/-- One tick of the idle-wake interval callback: reconnect(false) when
the current time exceeds lastTime + WAKEUP_THRESHOLD, then
unconditionally set lastTime to the current time. -/
def idleWakeTick (now : Nat) (st : IdleWakeState) : IdleWakeState × List Effect :=
  ({ lastTime := now },
   if st.lastTime + WAKEUP_THRESHOLD < now then [Effect.reconnect false] else [])

/-- The focus/blur state: the blurTime field of the component and the
window.isActive flag. -/
structure FocusState where
  blurTime : Nat
  isActive : Bool
deriving DecidableEq, Repr

/-- NeedsTeam.handleBlur: window.isActive := false, record the blur
time, and when a current user exists signal viewChannel of the empty
channel. -/
def handleBlur (now : Nat) (props : Props) (_fs : FocusState) : FocusState × List Effect :=
  ({ blurTime := now, isActive := false },
   if props.currentUser.isSome then [Effect.viewChannel ""] else [])

/-- NeedsTeam.handleFocus: three independent checks — a selected thread
sets window.isActive; a current channel is marked read-on-focus and sets
window.isActive; a blur older than UNREAD_CHECK_TIME_MILLISECONDS with a
current team re-fetches that team's channels and members. -/
def handleFocus (now : Nat) (props : Props) (fs : FocusState) : FocusState × List Effect :=
  let active1 := if props.selectedThreadId.isSome then true else fs.isActive
  let pair :=
    match props.currentChannelId with
    | some cid => (true, [Effect.markChannelAsReadOnFocus cid])
    | none => (active1, ([] : List Effect))
  let effs3 :=
    match props.currentTeamId with
    | some tid =>
        if UNREAD_CHECK_TIME_MILLISECONDS < now - fs.blurTime then
          [Effect.fetchMyChannelsAndMembersREST tid]
        else []
    | none => []
  ({ blurTime := fs.blurTime, isActive := pair.1 }, pair.2 ++ effs3)

/-- The constructor of NeedsTeam: on mfaRequired push the MFA setup
route and return with nothing else acquired (no interval, no state, no
join); otherwise clear and start the wake-up interval, resolve the team
via updateCurrentTeam, build the initial state, clear the
team-joined-on-load marker, and when no team was found start joinTeam
with firstLoad true. -/
def constructorRun (reservedTeamNames : List String) (props : Props) (env : JoinEnv) :
    List Effect × Option State :=
  if props.mfaRequired then
    ([Effect.historyPush "/mfa/setup"], none)
  else
    let u := updateCurrentTeam props
    let st : State :=
      { team := u.2, finishedFetchingChannels := false,
        prevTeam := props.matchParamsTeam, teamsList := props.teamsList }
    let joinEffs :=
      match u.2 with
      | some _ => []
      | none => (joinTeam reservedTeamNames props env true).1
    ([Effect.clearWindowInterval, Effect.setWindowInterval] ++ u.1 ++
      [Effect.setTeamIdJoinedOnLoad none] ++ joinEffs, some st)

/-- NeedsTeam.componentDidMount: start periodic status updates, fetch
all teams' channels and members, set window.isActive, enable iNoBounce
on iOS Safari, and register the focus, blur and keydown listeners. It
reads no props and in particular is not guarded by mfaRequired. -/
def componentDidMountEffects (isIosSafari : Bool) : List Effect :=
  [Effect.startPeriodicStatusUpdates,
   Effect.fetchAllMyTeamsChannelsAndChannelMembersREST,
   Effect.setWindowIsActive true] ++
  (if isIosSafari then [Effect.enableINoBounce] else []) ++
  [Effect.addEventListener "focus",
   Effect.addEventListener "blur",
   Effect.addEventListener "keydown"]

/-- The effects of one controller lifetime start: the constructor runs,
and the mount hook runs only when the constructor built a state. On the
MFA early return the constructor leaves this.state unassigned, so the
pre-mount getDerivedStateFromProps (reading state.prevTeam) and render
(reading this.state.team) dereference the missing state and throw —
the component never mounts and componentDidMount never executes. -/
def controllerStartEffects (reservedTeamNames : List String) (props : Props)
    (env : JoinEnv) (isIosSafari : Bool) : List Effect :=
  match constructorRun reservedTeamNames props env with
  | (effs, some _) => effs ++ componentDidMountEffects isIosSafari
  | (effs, none) => effs

/-- Whether an effect is one of the four group fetches issued by
initTeam. -/
def isGroupFetch : Effect → Bool
  | Effect.getAllGroupsAssociatedToChannelsInTeam _ _ => true
  | Effect.getAllGroupsAssociatedToTeam _ _ => true
  | Effect.getGroupsByUserIdPaginated _ _ _ _ _ => true
  | Effect.getGroups _ _ _ => true
  | _ => false

/-- Whether an effect is the paginated fetch of the current user's own
group memberships. -/
def isUserGroupsFetch : Effect → Bool
  | Effect.getGroupsByUserIdPaginated _ _ _ _ _ => true
  | _ => false

/-- Concrete example team with slug alpha, active and unconstrained. -/
def teamAlpha : Team := { id := "t-alpha", name := "alpha", delete_at := 0, group_constrained := false }

/-- Concrete example team with slug beta, active and unconstrained. -/
def teamBeta : Team := { id := "t-beta", name := "beta", delete_at := 0, group_constrained := false }

/-- Concrete example team that is group constrained. -/
def teamConstrained : Team := { id := "t-con", name := "con", delete_at := 0, group_constrained := true }

/-- Concrete example team that is soft-deleted (delete_at nonzero). -/
def teamDeleted : Team := { id := "t-del", name := "del", delete_at := 5, group_constrained := false }

/-- Concrete example non-guest user. -/
def memberUser : UserProfile := { id := "u1", roles := "system_user" }

/-- Concrete example guest user. -/
def guestUser : UserProfile := { id := "u2", roles := "system_guest" }

/-- License with LDAP groups enabled. -/
def licenseLdap : License := { IsLicensed := "true", LDAPGroups := "true" }

/-- License that is off. -/
def licenseOff : License := { IsLicensed := "false", LDAPGroups := "false" }

/-- Baseline props: unlicensed, a non-guest current user, route slug
alpha, empty teams list. -/
def baseProps : Props :=
  { license := licenseOff, currentUser := some memberUser, currentChannelId := none,
    currentTeamId := none, mfaRequired := false, matchParamsTeam := "alpha",
    previousTeamId := none, teamsList := [], collapsedThreads := false,
    selectedThreadId := none, isCustomGroupsEnabled := false }

/-- Environment in which getTeamByName yields no team. -/
def envNone : JoinEnv := { getTeamByNameResult := none, addUserToTeamError := false }

/-- Environment in which getTeamByName yields the soft-deleted team. -/
def envDeleted : JoinEnv := { getTeamByNameResult := some teamDeleted, addUserToTeamError := false }

/-- Props whose route slug is the reserved name admin_console. -/
def propsReservedSlug : Props := { baseProps with matchParamsTeam := "admin_console" }

/-- Props with an LDAP-groups license. -/
def propsLdap : Props := { baseProps with license := licenseLdap }

/-- Props with an LDAP-groups license and no current user. -/
def propsLdapNoUser : Props := { baseProps with license := licenseLdap, currentUser := none }

/-- Props on route alpha with alpha and beta in the teams list. -/
def propsAlphaRoute : Props := { baseProps with teamsList := [teamAlpha, teamBeta] }

/-- The alpha-route props after navigating to slug beta. -/
def propsBetaRoute : Props := { propsAlphaRoute with matchParamsTeam := "beta" }

/-- The beta-route props with a guest current user. -/
def propsBetaGuest : Props := { propsBetaRoute with currentUser := some guestUser }

/-- State of a controller that finished loading team alpha. -/
def stateReadyAlpha : State :=
  { team := some teamAlpha, finishedFetchingChannels := true, prevTeam := "alpha",
    teamsList := [teamAlpha, teamBeta] }

/-- Props with a current team and current channel set. -/
def propsFocus : Props :=
  { baseProps with currentTeamId := some "t-alpha", currentChannelId := some "chan1" }

/-- Focus state recorded at a blur at time 0. -/
def blurredAt0 : FocusState := { blurTime := 0, isActive := false }

/-- Props requiring MFA setup. -/
def propsMfa : Props := { baseProps with mfaRequired := true }

/-- Props whose persisted previous team id is team alpha's id. -/
def propsPrevAlpha : Props := { baseProps with previousTeamId := some "t-alpha" }

/-- initTeam never issues a history navigation. -/
theorem historyPush_not_mem_initTeam (props : Props) (team : Team) (p : String) :
    Effect.historyPush p ∉ initTeam props team := by
  cases hu : props.currentUser <;>
    simp only [initTeam, hu, List.mem_append, List.mem_cons, List.mem_singleton] <;>
    split_ifs <;> simp

/-- initTeam always issues the channel-and-members fetch for the team. -/
theorem fetch_channels_mem_initTeam (props : Props) (team : Team) :
    Effect.fetchMyChannelsAndMembersREST team.id ∈ initTeam props team := by
  cases hu : props.currentUser <;>
    simp only [initTeam, hu, List.mem_append, List.mem_cons, List.mem_singleton] <;>
    split_ifs <;> simp

/-- C2: inside initTeam, which of the two team-group alternatives is
issued is a pure function of the license flags, the custom-groups flag
and the team's group_constrained flag: the fetch of groups associated to
the team is issued exactly when the gate passes and the team is group
constrained with LDAP groups enabled; the general group list is fetched
exactly when the gate passes and that condition fails; when the gate
fails no group fetch of any kind is issued; the two alternatives are
never both issued. -/
theorem initTeam_group_selection (props : Props) (team : Team) :
    ((Effect.getAllGroupsAssociatedToTeam team.id true ∈ initTeam props team) ↔
      (groupFetchGate props = true ∧ teamGroupsCond props team = true)) ∧
    ((Effect.getGroups false 0 60 ∈ initTeam props team) ↔
      (groupFetchGate props = true ∧ teamGroupsCond props team = false)) ∧
    (groupFetchGate props = false →
      ((initTeam props team).all (fun e => !isGroupFetch e)) = true) ∧
    ¬(Effect.getAllGroupsAssociatedToTeam team.id true ∈ initTeam props team ∧
      Effect.getGroups false 0 60 ∈ initTeam props team) := by
  cases hu : props.currentUser <;>
    simp only [initTeam, hu, List.mem_append, List.mem_cons, List.mem_singleton,
      List.all_append, List.all_cons, List.all_nil] <;>
    split_ifs <;> simp_all [isGroupFetch]

/-- C2 witness: with an LDAP license, a constrained team gets the
team-associated fetch and an unconstrained team gets the general list. -/
theorem initTeam_group_selection_witness :
    Effect.getAllGroupsAssociatedToTeam "t-con" true ∈ initTeam propsLdap teamConstrained ∧
    Effect.getGroups false 0 60 ∈ initTeam propsLdap teamAlpha :=
  ⟨(initTeam_group_selection propsLdap teamConstrained).1.mpr (by decide),
   (initTeam_group_selection propsLdap teamAlpha).2.1.mpr (by decide)⟩

/-- C3: for a slug in the reserved-name set, joinTeam is a no-op — it
issues no effect at all (no team-by-name fetch, no add-user call, no
navigation) and stores no team. -/
theorem joinTeam_reserved_noop (reservedTeamNames : List String) (props : Props)
    (env : JoinEnv) (firstLoad : Bool)
    (h : reservedTeamNames.contains props.matchParamsTeam = true) :
    joinTeam reservedTeamNames props env firstLoad = ([], none) := by
  have hmem : props.matchParamsTeam ∈ reservedTeamNames := by simpa using h
  simp [joinTeam, hmem]

/-- C3 witness: joining the reserved slug admin_console does nothing. -/
theorem joinTeam_reserved_noop_witness :
    joinTeam ["admin_console"] propsReservedSlug envNone true = ([], none) :=
  joinTeam_reserved_noop ["admin_console"] propsReservedSlug envNone true (by decide)

/-- C5 counterexample: the group-fetch gate passes (licensed with LDAP
groups) yet, because no current user is present, the paginated fetch of
the user's own group memberships is not issued by initTeam. -/
theorem user_groups_fetch_counterexample :
    groupFetchGate propsLdapNoUser = true ∧
    (initTeam propsLdapNoUser teamAlpha).all (fun e => !isUserGroupsFetch e) = true := by
  decide

/-- C5 (amended): whenever the group-fetch gate passes and a current
user is present, initTeam fetches that user's own paginated group
memberships. -/
theorem initTeam_user_groups_fetch (props : Props) (team : Team) (u : UserProfile)
    (hg : groupFetchGate props = true) (hu : props.currentUser = some u) :
    Effect.getGroupsByUserIdPaginated u.id false 0 60 true ∈ initTeam props team := by
  simp only [initTeam, hu, hg, List.mem_append, List.mem_cons, List.mem_singleton]
  split_ifs <;> simp

/-- C5 witness: with the LDAP license and the member user present, the
user-groups fetch is issued. -/
theorem initTeam_user_groups_fetch_witness :
    Effect.getGroupsByUserIdPaginated "u1" false 0 60 true ∈ initTeam propsLdap teamAlpha :=
  initTeam_user_groups_fetch propsLdap teamAlpha memberUser (by decide) rfl

/-- C1 counterexample: for the reserved slug admin_console absent from
the teams list, resolution completes with no team held and no error
navigation issued — neither side of the claimed exactly-one invariant
holds. -/
theorem resolution_exactly_one_counterexample :
    ¬ resolutionExactlyOne ["admin_console"] propsReservedSlug envNone true := by
  unfold resolutionExactlyOne
  decide

/-- C1 (amended): for every slug not in the reserved-name set, once
resolution has completed exactly one of the two outcomes holds — the
controller holds a team and no error navigation was issued, or it holds
none and the team-not-found navigation was issued; reserved slugs absent
from the teams list instead end with no team and no navigation. -/
theorem resolution_exactly_one_nonreserved (reservedTeamNames : List String)
    (props : Props) (env : JoinEnv) (firstLoad : Bool)
    (h : reservedTeamNames.contains props.matchParamsTeam = false) :
    resolutionExactlyOne reservedTeamNames props env firstLoad := by
  have hmem : props.matchParamsTeam ∉ reservedTeamNames := by simpa using h
  unfold resolutionExactlyOne resolveRoute updateCurrentTeam joinTeam
  rcases hf : props.teamsList.find? (fun t => t.name == props.matchParamsTeam) with _ | team
  · rcases henv : env.getTeamByNameResult with _ | t
    · simp [hf, hmem, henv]
    · by_cases hdel : t.delete_at = 0
      · cases herr : env.addUserToTeamError <;> cases firstLoad <;>
          simp [hf, hmem, henv, hdel, herr, historyPush_not_mem_initTeam]
      · simp [hf, hmem, henv, hdel]
  · simp [hf, historyPush_not_mem_initTeam]

/-- C1 witness: a non-reserved slug absent from the teams list with no
team resolvable ends in exactly one outcome (here: the error
navigation). -/
theorem resolution_exactly_one_nonreserved_witness :
    resolutionExactlyOne [] baseProps envNone true :=
  resolution_exactly_one_nonreserved [] baseProps envNone true (by decide)

/-- C4: for a non-reserved slug, whenever the resolved team is absent or
soft-deleted, or the add-user request errors, joinTeam stores no team,
pushes the one generic team-not-found error route, and never selects
(initializes) any team. -/
theorem joinTeam_failure_navigation (reservedTeamNames : List String) (props : Props)
    (env : JoinEnv) (firstLoad : Bool)
    (hres : reservedTeamNames.contains props.matchParamsTeam = false)
    (hfail : env.getTeamByNameResult = none ∨
      ∃ t, env.getTeamByNameResult = some t ∧
        (t.delete_at ≠ 0 ∨ env.addUserToTeamError = true)) :
    (joinTeam reservedTeamNames props env firstLoad).2 = none ∧
    Effect.historyPush "/error?type=team_not_found" ∈
      (joinTeam reservedTeamNames props env firstLoad).1 ∧
    ∀ tid, Effect.selectTeam tid ∉ (joinTeam reservedTeamNames props env firstLoad).1 := by
  unfold joinTeam
  simp only [hres, Bool.false_eq_true, if_false]
  rcases hfail with henv | ⟨t, henv, hbad⟩
  · simp [henv]
  · rcases hbad with hdel | herr
    · simp [henv, hdel]
    · by_cases hdel : t.delete_at = 0 <;> simp [henv, hdel, herr]

/-- C4 witness: joining a slug that resolves to a soft-deleted team
pushes the team-not-found route and initializes nothing. -/
theorem joinTeam_failure_navigation_witness :
    (joinTeam [] baseProps envDeleted false).2 = none ∧
    Effect.historyPush "/error?type=team_not_found" ∈ (joinTeam [] baseProps envDeleted false).1 ∧
    ∀ tid, Effect.selectTeam tid ∉ (joinTeam [] baseProps envDeleted false).1 :=
  joinTeam_failure_navigation [] baseProps envDeleted false (by decide)
    (Or.inr ⟨teamDeleted, rfl, Or.inl (by decide)⟩)

/-- C6 counterexample: a route change from alpha to beta with a
non-guest user re-resolves the team, but finishedFetchingChannels stays
true from the previous team while the new team's channel fetch has only
just been issued — it is not reset to false. -/
theorem route_change_reset_counterexample :
    (routeChangeUpdate [] propsAlphaRoute propsBetaRoute stateReadyAlpha envNone).1.team = some teamBeta ∧
    (routeChangeUpdate [] propsAlphaRoute propsBetaRoute stateReadyAlpha envNone).1.finishedFetchingChannels = true ∧
    Effect.fetchMyChannelsAndMembersREST "t-beta" ∈
      (routeChangeUpdate [] propsAlphaRoute propsBetaRoute stateReadyAlpha envNone).2 := by
  decide

/-- C6 (amended): on a route-slug change the controller re-resolves the
new slug against the current teams list and issues the new team's
channel fetch, but finishedFetchingChannels is reset to false before
that fetch completes only when the current user is a guest; otherwise it
keeps its previous value. -/
theorem route_change_update_spec (reservedTeamNames : List String)
    (prevProps props : Props) (state : State) (env : JoinEnv) (team : Team)
    (hslug : props.matchParamsTeam ≠ prevProps.matchParamsTeam)
    (hprev : state.prevTeam = prevProps.matchParamsTeam)
    (hfind : props.teamsList.find? (fun t => t.name == props.matchParamsTeam) = some team) :
    (routeChangeUpdate reservedTeamNames prevProps props state env).1.team = some team ∧
    (routeChangeUpdate reservedTeamNames prevProps props state env).1.finishedFetchingChannels =
      (if isGuestUser props then false else state.finishedFetchingChannels) ∧
    Effect.fetchMyChannelsAndMembersREST team.id ∈
      (routeChangeUpdate reservedTeamNames prevProps props state env).2 := by
  have hne : state.prevTeam ≠ props.matchParamsTeam := by
    rw [hprev]; exact fun hcontra => hslug hcontra.symm
  unfold routeChangeUpdate getDerivedStateFromProps initTeamStateUpdate
  simp only [hne, hslug, hfind, if_true, ite_true, if_pos]
  split_ifs <;> simp [fetch_channels_mem_initTeam]

/-- C6 witness: the same route change with a guest user does reset
finishedFetchingChannels to false before the fetch completes. -/
theorem route_change_update_spec_witness :
    (routeChangeUpdate [] propsAlphaRoute propsBetaGuest stateReadyAlpha envNone).1.team = some teamBeta ∧
    (routeChangeUpdate [] propsAlphaRoute propsBetaGuest stateReadyAlpha envNone).1.finishedFetchingChannels =
      (if isGuestUser propsBetaGuest then false else stateReadyAlpha.finishedFetchingChannels) ∧
    Effect.fetchMyChannelsAndMembersREST teamBeta.id ∈
      (routeChangeUpdate [] propsAlphaRoute propsBetaGuest stateReadyAlpha envNone).2 :=
  route_change_update_spec [] propsAlphaRoute propsBetaGuest stateReadyAlpha envNone teamBeta
    (by decide) (by decide) (by decide)

/-- C7 counterexample: starting the monitor at time 100000 with the
module loaded at time 0 does not record lastTickTimestamp = 100000, and
the first tick 30 seconds after start fires a reconnect even though only
30 seconds of real time elapsed since the monitor started. -/
theorem idle_wake_start_counterexample :
    (idleWakeStart 100000 (idleWakeModuleInit 0)).lastTime ≠ 100000 ∧
    (idleWakeTick 130000 (idleWakeStart 100000 (idleWakeModuleInit 0))).2 =
      [Effect.reconnect false] := by
  decide

/-- C7 (amended): lastTime is initialized when the module loads and is
not re-recorded when the monitor starts; every tick triggers exactly one
non-forced reconnect precisely when the elapsed time since the recorded
timestamp exceeds the 60-second threshold, and unconditionally updates
the timestamp to the current time. -/
theorem idle_wake_tick_spec (now : Nat) (st : IdleWakeState) :
    idleWakeStart now st = st ∧
    (idleWakeTick now st).1.lastTime = now ∧
    ((idleWakeTick now st).2 = [Effect.reconnect false] ↔
      st.lastTime + WAKEUP_THRESHOLD < now) ∧
    ((idleWakeTick now st).2 = [] ↔ ¬ st.lastTime + WAKEUP_THRESHOLD < now) := by
  refine ⟨rfl, rfl, ?_, ?_⟩ <;>
    · unfold idleWakeTick
      split_ifs with hcond <;> simp [hcond]

/-- C7 witness: a tick 61 seconds after the recorded timestamp fires the
reconnect; one 30 seconds after does not. -/
theorem idle_wake_tick_spec_witness :
    (idleWakeTick 61001 (idleWakeModuleInit 0)).2 = [Effect.reconnect false] ∧
    (idleWakeTick 30000 (idleWakeModuleInit 0)).2 = [] :=
  ⟨(idle_wake_tick_spec 61001 (idleWakeModuleInit 0)).2.2.1.mpr (by decide),
   (idle_wake_tick_spec 30000 (idleWakeModuleInit 0)).2.2.2.mpr (by decide)⟩

/-- C8: the three focus effects are independent — a selected thread sets
the window-active flag; a current channel is marked read-on-focus with
the flag set; and the team channel re-fetch is issued exactly when the
elapsed time since the recorded blur exceeds 10 seconds and a current
team exists. -/
theorem handle_focus_spec (now : Nat) (props : Props) (fs : FocusState) :
    (props.selectedThreadId.isSome = true → (handleFocus now props fs).1.isActive = true) ∧
    (∀ cid, props.currentChannelId = some cid →
      Effect.markChannelAsReadOnFocus cid ∈ (handleFocus now props fs).2 ∧
      (handleFocus now props fs).1.isActive = true) ∧
    (∀ tid, Effect.fetchMyChannelsAndMembersREST tid ∈ (handleFocus now props fs).2 ↔
      (UNREAD_CHECK_TIME_MILLISECONDS < now - fs.blurTime ∧ props.currentTeamId = some tid)) := by
  unfold handleFocus
  rcases props.currentChannelId with _ | cid <;>
    rcases props.currentTeamId with _ | tid <;>
      rcases props.selectedThreadId with _ | th <;>
        simp <;> (intro x hx; exact eq_comm)

/-- C8 witness: blur at 0 then focus at 15 seconds re-fetches the
current team's channels, focus at 5 seconds does not, and the current
channel is marked read on focus. -/
theorem handle_focus_spec_witness :
    Effect.fetchMyChannelsAndMembersREST "t-alpha" ∈ (handleFocus 15000 propsFocus blurredAt0).2 ∧
    Effect.fetchMyChannelsAndMembersREST "t-alpha" ∉ (handleFocus 5000 propsFocus blurredAt0).2 ∧
    Effect.markChannelAsReadOnFocus "chan1" ∈ (handleFocus 15000 propsFocus blurredAt0).2 := by
  refine ⟨((handle_focus_spec 15000 propsFocus blurredAt0).2.2 "t-alpha").mpr (by decide),
    ?_, ((handle_focus_spec 15000 propsFocus blurredAt0).2.1 "chan1" rfl).1⟩
  intro hmem
  have hiff := ((handle_focus_spec 5000 propsFocus blurredAt0).2.2 "t-alpha").mp hmem
  exact absurd hiff.1 (by decide)

/-- C9: when MFA is required at controller start, the only effect of the
whole controller lifetime start is the redirect to the MFA-setup route:
in particular no wake-up interval timer is started and no focus, blur or
keydown event listener is registered — the constructor returns before
assigning state, the component throws before mounting, and the mount
hook never runs. -/
theorem mfa_skips_scoped_resources (reservedTeamNames : List String) (props : Props)
    (env : JoinEnv) (isIosSafari : Bool) (h : props.mfaRequired = true) :
    controllerStartEffects reservedTeamNames props env isIosSafari =
      [Effect.historyPush "/mfa/setup"] ∧
    Effect.setWindowInterval ∉ controllerStartEffects reservedTeamNames props env isIosSafari ∧
    ∀ ev, Effect.addEventListener ev ∉
      controllerStartEffects reservedTeamNames props env isIosSafari := by
  unfold controllerStartEffects constructorRun
  simp [h]

/-- C9 witness: the MFA props exhibit the redirect-only lifetime start
with neither the interval nor any listener registration. -/
theorem mfa_skips_scoped_resources_witness :
    controllerStartEffects [] propsMfa envNone false = [Effect.historyPush "/mfa/setup"] ∧
    Effect.setWindowInterval ∉ controllerStartEffects [] propsMfa envNone false ∧
    ∀ ev, Effect.addEventListener ev ∉ controllerStartEffects [] propsMfa envNone false :=
  mfa_skips_scoped_resources [] propsMfa envNone false (by decide)

/-- C10: initTeam issues the close-right-hand-sidebar effect exactly
when the team being initialized differs from the persisted previous
team id; initializing the previous team again leaves the sidebar
untouched. -/
theorem initTeam_close_rhs_iff (props : Props) (team : Team) :
    Effect.emitCloseRightHandSide ∈ initTeam props team ↔ some team.id ≠ props.previousTeamId := by
  cases hu : props.currentUser <;>
    simp only [initTeam, hu, List.mem_append, List.mem_cons, List.mem_singleton] <;>
    split_ifs <;> simp_all

/-- C10 witness: with no previous team recorded the sidebar is closed;
re-initializing the recorded previous team does not close it. -/
theorem initTeam_close_rhs_iff_witness :
    Effect.emitCloseRightHandSide ∈ initTeam baseProps teamAlpha ∧
    Effect.emitCloseRightHandSide ∉ initTeam propsPrevAlpha teamAlpha :=
  ⟨(initTeam_close_rhs_iff baseProps teamAlpha).mpr (by decide),
   fun h => absurd ((initTeam_close_rhs_iff propsPrevAlpha teamAlpha).mp h) (by decide)⟩

end NeedsTeam
